import Mathlib

/-!
Shallow embedding of the dispatch core of `apns2` (`dispatch.go`):
the wait counters, the processing configuration, the governor state and
its event loop, the launcher, and the retry forwarder.

Conventions of the embedding:
* Go `uint32` values are `Nat` with explicit reduction modulo `2 ^ 32`
  (`U32_MOD`) wherever the Go code can overflow or truncate.
* Go `time.Duration` (an `int64` of nanoseconds) and `time.Time` instants
  are `Int`; the zero `time.Time` is `0` and `t.Add(d).After(now)` is
  `now < t + d`.
* Channels and goroutines are replaced by explicit events: the governor
  loop body becomes a step function over an event type, and a run over a
  list of events replays the loop.  Ghost fields (`scaleLog`,
  `warnCount`) record observable actions (scaling launches, warnings
  logged) without influencing any control decision.
* Code that lives outside `dispatch.go` (the `Scale` policies, the
  streamer's `start`) is modelled from the spec, as marked on each such
  definition.
-/

/-- 2 ^ 32, the modulus of Go's `uint32` arithmetic. -/
def U32_MOD : Nat := 4294967296

/-- Embeds `waitCounter` (dispatch.go:159-162): counters of continuous
periods with waits and no waits. Both fields are Go `uint32`. -/
structure waitCounter where
  waits : Nat
  noWaits : Nat
deriving DecidableEq

/-- Embeds `waitCounter.acc` (dispatch.go:164-172): on a positive sample
increment `waits` and reset `noWaits`, otherwise increment `noWaits` and
reset `waits`. The increments are Go `uint32` increments, hence taken
modulo `2 ^ 32`. -/
def waitCounter.acc (c : waitCounter) (val : Nat) : waitCounter :=
  if 0 < val then { waits := (c.waits + 1) % U32_MOD, noWaits := 0 }
  else { waits := 0, noWaits := (c.noWaits + 1) % U32_MOD }

/-- Modelled from the spec: the `Scale` interface (its source is not under
`src/`; `dispatch.go` only calls `Apply` and `ApplyInverse`, both of Go
type `func(uint32) uint32`). A scale policy is a pure pair of functions on
the provisioned count. -/
structure Scale where
  apply : Nat → Nat
  applyInverse : Nat → Nat

/-- Modelled from the spec: the predefined `Incremental` policy,
`Apply(n) = n + 1` and `ApplyInverse(n) = n - 1` with floor 0. -/
def Incremental : Scale :=
  { apply := fun n => n + 1, applyInverse := fun n => n - 1 }

/-- Embeds the fields of `ProcCfg` (dispatch.go:14-91) that the dispatch
logic reads. `MaxRetries`, `MinConns`, `MaxConns` are Go `uint32`;
`MinSustain`, `PollInterval`, `SettlePeriod` are Go `time.Duration`
(`int64` nanoseconds), embedded as `Int`. -/
structure ProcCfg where
  MaxRetries : Nat
  MinConns : Nat
  MaxConns : Nat
  scale : Scale
  MinSustain : Int
  PollInterval : Int
  SettlePeriod : Int

/-- Embeds `ProcCfg.minSustainPollPeriods` (dispatch.go:110-119):
`^uint32(0)` when either duration is non-positive, otherwise
`MinSustain / PollInterval` rounded up, truncated by the final Go
`uint32(res)` conversion. In the positive branch Go's truncated `int64`
division agrees with `Int` division. -/
def ProcCfg.minSustainPollPeriods (c : ProcCfg) : Nat :=
  if c.MinSustain ≤ 0 ∨ c.PollInterval ≤ 0 then U32_MOD - 1
  else
    let res := c.MinSustain / c.PollInterval
    let res' := if 0 < c.MinSustain % c.PollInterval then res + 1 else res
    res'.toNat % U32_MOD

/-- Embeds the result side of `launcher` (dispatch.go:329-336): its
identifier, the error recorded by `launch`, and the started streamer (if
any), with streamers identified by the numeric part of their id. -/
structure launcher where
  lid : Nat
  err : Option Nat
  worker : Option Nat
deriving DecidableEq

/-- Embeds `launcher.launch` (dispatch.go:338-358). The outcome of
`streamer.start` (the streamer's code is not under `src/`) is the
parameter `startErr`: `launch` records it in `err` and sets `worker` to
the new streamer exactly when the error is `none`, then posts the record
on the launcher-exit channel (here: returns it). -/
def launcher.launch (lid : Nat) (startErr : Option Nat) : launcher :=
  { lid := lid, err := startErr
    worker := if startErr = none then some lid else none }

/-- Embeds the governor state (dispatch.go:121-157). The `streamers` and
`launchers` maps become lists of identifiers; `scaleLog` and `warnCount`
are ghost fields recording, respectively, the times at which a
tick-driven scaling action launched streamers and the number of
launch-error warnings logged. -/
structure governor where
  cfg : ProcCfg
  minSust : Nat
  nonBlocking : Bool
  inCtr : waitCounter
  outCtr : waitCounter
  streamers : List Nat
  launchers : List Nat
  nextWId : Nat
  lastScale : Int
  isClosing : Bool
  scaleLog : List Int
  warnCount : Nat

/-- Embeds `governor.launchStreamer` (dispatch.go:288-294): registers a
fresh launcher under the next worker id. -/
def governor.launchStreamer (g : governor) : governor :=
  { g with launchers := g.nextWId :: g.launchers, nextWId := g.nextWId + 1 }

/-- Embeds `governor.allowedScaleDelta` (dispatch.go:296-327). `now` is
the value of `time.Now()`; `prov` carries the Go `uint32(len+len)`
truncation. -/
def governor.allowedScaleDelta (g : governor) (now : Int) (forUp : Bool) : Int :=
  if g.isClosing then 0
  else if now < g.lastScale + g.cfg.SettlePeriod then 0
  else if ¬g.nonBlocking ∧ 0 < g.launchers.length then 0
  else
    let prov := (g.streamers.length + g.launchers.length) % U32_MOD
    if forUp then
      if g.cfg.MaxConns ≤ prov then 0
      else
        let req := g.cfg.scale.apply prov
        let req1 := if req < g.cfg.MinConns then g.cfg.MinConns else req
        let req2 := if g.cfg.MaxConns < req1 then g.cfg.MaxConns else req1
        (req2 : Int) - (prov : Int)
    else
      if prov ≤ g.cfg.MinConns then 0
      else
        let req := g.cfg.scale.applyInverse prov
        let req1 := if req < g.cfg.MinConns then g.cfg.MinConns else req
        let req2 := if g.cfg.MaxConns < req1 then g.cfg.MaxConns else req1
        (req2 : Int) - (prov : Int)

/-- The admissible-delta rule exactly as the specification words it
(spec §4.5 "Scale gating"): zero on `isClosing`, inside the settle
window, or with launchers in flight in default blocking mode; zero at the
up/down capacity bounds on `prov = |streamers| + |launchers|`; otherwise
`req - prov` with `req` the scale target clamped into
`[MinConns, MaxConns]`. -/
def allowedScaleDeltaClaim (g : governor) (now : Int) (forUp : Bool) : Int :=
  if g.isClosing ∨ now < g.lastScale + g.cfg.SettlePeriod ∨
      (¬g.nonBlocking ∧ g.launchers ≠ []) then 0
  else
    let prov := g.streamers.length + g.launchers.length
    if forUp = true ∧ g.cfg.MaxConns ≤ prov then 0
    else if forUp = false ∧ prov ≤ g.cfg.MinConns then 0
    else
      let raw := if forUp then g.cfg.scale.apply prov else g.cfg.scale.applyInverse prov
      let req := min g.cfg.MaxConns (max g.cfg.MinConns raw)
      (req : Int) - (prov : Int)

/-- Launches `n` streamers in a row, as the loop in `tryScaleUp` does. -/
def governor.launchN : governor → Nat → governor
  | g, 0 => g
  | g, n + 1 => governor.launchN g.launchStreamer n

/-- Embeds `governor.tryScaleUp` (dispatch.go:273-282): computes the
allowed delta and launches that many streamers when it is positive. The
ghost `scaleLog` records `now` whenever a scaling action takes place. -/
def governor.tryScaleUp (g : governor) (now : Int) : governor :=
  let delta := g.allowedScaleDelta now true
  if delta ≤ 0 then g
  else { g.launchN delta.toNat with scaleLog := now :: g.scaleLog }

/-- Embeds `governor.tryWindDown` (dispatch.go:284-286): unimplemented in
the source (`TODO Implement winding down`), hence the identity. -/
def governor.tryWindDown (g : governor) : governor := g

/-- Embeds the counter updates of `governor.updateCountersAndEvalScaling`
(dispatch.go:252-259). `ics` is the folded inbound sample and `ocs` the
summed outbound sample; both arrive as parameters because the folds read
channels outside the governor's state. -/
def governor.updateCounters (g : governor) (ics ocs : Nat) : governor :=
  { g with inCtr := g.inCtr.acc ics, outCtr := g.outCtr.acc ocs }

/-- Embeds the decision part of `governor.updateCountersAndEvalScaling`
(dispatch.go:260-265). -/
def governor.evalScaling (g : governor) : Int :=
  if g.minSust ≤ g.inCtr.waits ∧ g.minSust ≤ g.outCtr.noWaits then 1
  else if g.minSust ≤ g.inCtr.noWaits then -1
  else 0

/-- Embeds `governor.updateCountersAndEvalScaling` (dispatch.go:249-266):
update both counters from the fresh samples, then evaluate the scaling
decision on the updated counters. -/
def governor.updateCountersAndEvalScaling (g : governor) (ics ocs : Nat) :
    governor × Int :=
  let g' := g.updateCounters ics ocs
  (g', g'.evalScaling)

/-- The events the governor's `select` (dispatch.go:192-230) can wake on:
a launcher exit carrying the launcher record, a streamer exit carrying its
`inClosed`/`didQuit` flags, a ticker tick carrying the current time and
the folded samples, and the hard-stop control signal. -/
inductive GovEvent where
  | lExit (l : launcher)
  | wExit (sid : Nat) (inClosed didQuit : Bool)
  | tick (now : Int) (ics ocs : Nat)
  | ctl
deriving DecidableEq

/-- Embeds one iteration of the governor loop body (dispatch.go:192-230).
Returns the new state and whether the `ctl` case set `done`. -/
def governor.step (g : governor) (e : GovEvent) : governor × Bool :=
  match e with
  | .lExit l =>
    let g1 := { g with launchers := g.launchers.erase l.lid }
    match l.worker with
    | some sid => ({ g1 with streamers := sid :: g1.streamers }, false)
    | none =>
      match l.err with
      | some _ => ({ g1 with warnCount := g1.warnCount + 1 }, false)
      | none => (g1, false)
  | .wExit sid inClosed didQuit =>
    let g1 := if inClosed ∧ ¬g.isClosing then { g with isClosing := true } else g
    let g2 := { g1 with streamers := g1.streamers.erase sid }
    (if didQuit then g2.launchStreamer else g2, false)
  | .tick now ics ocs =>
    if g.isClosing then (g, false)
    else
      let p := g.updateCountersAndEvalScaling ics ocs
      if 0 < p.2 then (p.1.tryScaleUp now, false)
      else if p.2 < 0 then (p.1.tryWindDown, false)
      else (p.1, false)
  | .ctl => (g, true)

/-- Replays the governor loop (dispatch.go:191-234) over a list of
events, including the post-iteration check that ends the loop once
`isClosing` holds and both pools are empty. -/
def governor.runEvents : governor → List GovEvent → governor
  | g, [] => g
  | g, e :: es =>
    let p := g.step e
    let done := p.2 || (p.1.isClosing && p.1.streamers.isEmpty && p.1.launchers.isEmpty)
    if done then p.1 else p.1.runEvents es

/-- The governor state right after the setup of `governor.run`
(dispatch.go:175-183) and before the initial `tryScaleUp`: empty pools,
zero counters, zero `lastScale` (the zero `time.Time`), not closing, and
the default blocking launch mode (the zero value of `nonBlocking`). -/
def governor.initState (cfg : ProcCfg) : governor :=
  { cfg := cfg, minSust := cfg.minSustainPollPeriods, nonBlocking := false
    inCtr := ⟨0, 0⟩, outCtr := ⟨0, 0⟩, streamers := [], launchers := []
    nextWId := 0, lastScale := 0, isClosing := false, scaleLog := [], warnCount := 0 }

/-- The state of `governor.runRetryForwarder`'s loop (dispatch.go:373-395)
that the retry-receive case reads and writes: whether a sub-buffer exists
(`buf != nil`), the rotation counter `cnt`, and ghost counts of spawned
`bufferedForwarder` tasks and closed sub-buffers. -/
structure rfState where
  hasBuf : Bool
  cnt : Nat
  spawned : Nat
  closedBufs : Nat
deriving DecidableEq

/-- Embeds the body of the `req := <-g.retry` case (dispatch.go:381-391):
when no sub-buffer exists or `cnt >= 500`, close the old sub-buffer (if
any), allocate a fresh one, spawn a `bufferedForwarder` and reset `cnt`;
then place the request in the sub-buffer. The source never increments
`cnt` anywhere in this loop. -/
def rfStep (s : rfState) : rfState :=
  if s.hasBuf = false ∨ 500 ≤ s.cnt then
    { hasBuf := true, cnt := 0, spawned := s.spawned + 1
      closedBufs := s.closedBufs + (if s.hasBuf then 1 else 0) }
  else s

/-- Modelled from the spec: the intended per-request rule of the retry
forwarder (spec §4.6) under which `cnt` counts the requests the current
sub-buffer has received, so that the request after the 500th rotates the
sub-buffer. -/
def rfStepSpec (s : rfState) : rfState :=
  let s1 :=
    if s.hasBuf = false ∨ 500 ≤ s.cnt then
      { hasBuf := true, cnt := 0, spawned := s.spawned + 1
        closedBufs := s.closedBufs + (if s.hasBuf then 1 else 0) }
    else s
  { s1 with cnt := s1.cnt + 1 }

/-- The forwarder state before any request is received
(dispatch.go:373-375): no sub-buffer, `cnt = 0`. -/
def rfInit : rfState := ⟨false, 0, 0, 0⟩

/-- Replays `n` consecutive retry-channel receives of the forwarder loop
under a given per-request step. -/
def rfRun (step : rfState → rfState) : Nat → rfState
  | 0 => rfInit
  | n + 1 => step (rfRun step n)

/-- Observable outcome of `governor.runRetryForwarder`
(dispatch.go:363-397) on a run that receives `reqs` retry requests:
whether the internal `g.retry` channel was allocated, how many
`bufferedForwarder` tasks were spawned, and how many requests were pushed
onto the Client's retry channel. The push total is modelled from the
spec: per §4.3/§5 the only writer to the Client's retry channel is
`bufferedForwarder`, which forwards every request buffered for it
(absent cancellation). -/
structure rfOutcome where
  allocatedRetryChan : Bool
  spawnedForwarders : Nat
  clientRetryWrites : Nat
deriving DecidableEq

/-- Embeds `governor.runRetryForwarder` (dispatch.go:363-397): when
`MaxRetries == 0` it returns before allocating `g.retry` or spawning
anything; otherwise it allocates the channel and runs the receive loop. -/
def governor.runRetryForwarder (cfg : ProcCfg) (reqs : Nat) : rfOutcome :=
  if cfg.MaxRetries = 0 then ⟨false, 0, 0⟩
  else ⟨true, (rfRun rfStep reqs).spawned, reqs⟩

/-- A small concrete configuration used by witnesses and traces:
`MinConns = 1`, `MaxConns = 8`, incremental scaling, `MinSustain` equal
to `PollInterval` (so `minSust = 1`) and a 50-unit settle period. -/
def cfgDemo : ProcCfg :=
  { MaxRetries := 3, MinConns := 1, MaxConns := 8, scale := Incremental
    MinSustain := 20, PollInterval := 20, SettlePeriod := 50 }

/-- `cfgDemo` with retries disabled. -/
def cfgNoRetry : ProcCfg := { cfgDemo with MaxRetries := 0 }

/-- `cfgDemo` with a non-positive `MinSustain`. -/
def cfgNeg : ProcCfg := { cfgDemo with MinSustain := 0 }

/-- `cfgDemo` with `MinSustain` of `2 ^ 32` nanoseconds (about 4.3 s) and
a 1 ns `PollInterval`, so the ceiling of their quotient is `2 ^ 32`. -/
def cfgOverflow : ProcCfg := { cfgDemo with MinSustain := 4294967296, PollInterval := 1 }

/-- Event trace for the settle-period analysis: two ticks 20 time units
apart, both sampling inbound waits and no outbound waits, with the single
pending launcher completing successfully in between. -/
def eventsSettle : List GovEvent :=
  [GovEvent.tick 1000 1 0, GovEvent.lExit (launcher.launch 0 none),
   GovEvent.tick 1020 1 0]

/-! ## Theorems -/

/-- C3 counterexample: starting from the wait counter `(2^32 - 1, 0)` —
reachable after `2^32 - 1` consecutive waiting poll periods — a further
positive sample wraps the Go `uint32` increment to `0`, so after `acc`
both fields are zero and "exactly one of the two fields equals zero"
fails. -/
theorem acc_exactlyOneZero_cx :
    ¬(((waitCounter.acc ⟨U32_MOD - 1, 0⟩ 1).waits = 0 ∧
       (waitCounter.acc ⟨U32_MOD - 1, 0⟩ 1).noWaits ≠ 0) ∨
      ((waitCounter.acc ⟨U32_MOD - 1, 0⟩ 1).waits ≠ 0 ∧
       (waitCounter.acc ⟨U32_MOD - 1, 0⟩ 1).noWaits = 0)) := by
  decide

/-- C3 (amended): `acc(v)` increments `waits` (modulo `2^32`) and resets
`noWaits` when `v > 0`, and symmetrically otherwise; provided the
incremented field does not wrap (both fields below `2^32 - 1`
beforehand), exactly one of the two fields equals zero afterwards. -/
theorem acc_amended (c : waitCounter) (v : Nat)
    (hw : c.waits + 1 < U32_MOD) (hn : c.noWaits + 1 < U32_MOD) :
    ((0 < v → c.acc v = ⟨c.waits + 1, 0⟩) ∧
     (v = 0 → c.acc v = ⟨0, c.noWaits + 1⟩)) ∧
    (((c.acc v).waits = 0 ∧ (c.acc v).noWaits ≠ 0) ∨
     ((c.acc v).waits ≠ 0 ∧ (c.acc v).noWaits = 0)) := by
  have hacc : c.acc v = if 0 < v then ⟨c.waits + 1, 0⟩ else ⟨0, c.noWaits + 1⟩ := by
    unfold waitCounter.acc
    by_cases hv : 0 < v
    · rw [if_pos hv, if_pos hv, Nat.mod_eq_of_lt hw]
    · rw [if_neg hv, if_neg hv, Nat.mod_eq_of_lt hn]
  rw [hacc]
  by_cases hv : 0 < v
  · rw [if_pos hv]
    exact ⟨⟨fun _ => rfl, fun h0 => by omega⟩, Or.inr ⟨by simp, rfl⟩⟩
  · rw [if_neg hv]
    exact ⟨⟨fun h0 => by omega, fun _ => rfl⟩, Or.inl ⟨rfl, by simp⟩⟩

/-- C3 witness: the amended statement evaluated at the counter `(0, 0)`
and the sample `1`. -/
theorem acc_amended_witness :
    ((0 < 1 → waitCounter.acc ⟨0, 0⟩ 1 = ⟨0 + 1, 0⟩) ∧
     (1 = 0 → waitCounter.acc ⟨0, 0⟩ 1 = ⟨0, 0 + 1⟩)) ∧
    (((waitCounter.acc ⟨0, 0⟩ 1).waits = 0 ∧ (waitCounter.acc ⟨0, 0⟩ 1).noWaits ≠ 0) ∨
     ((waitCounter.acc ⟨0, 0⟩ 1).waits ≠ 0 ∧ (waitCounter.acc ⟨0, 0⟩ 1).noWaits = 0)) :=
  acc_amended ⟨0, 0⟩ 1 (by decide) (by decide)

/-- C2: after the counters are updated, `updateCountersAndEvalScaling`
returns `+1` iff `inCtr.waits ≥ minSust` and `outCtr.noWaits ≥ minSust`,
returns `-1` iff `inCtr.noWaits ≥ minSust` while the `+1` condition does
not hold, and returns `0` in every other case. -/
theorem updateCountersAndEvalScaling_decision (g : governor) (ics ocs : Nat) :
    ((g.updateCountersAndEvalScaling ics ocs).2 = 1 ↔
      (g.minSust ≤ (g.updateCounters ics ocs).inCtr.waits ∧
       g.minSust ≤ (g.updateCounters ics ocs).outCtr.noWaits)) ∧
    ((g.updateCountersAndEvalScaling ics ocs).2 = -1 ↔
      (g.minSust ≤ (g.updateCounters ics ocs).inCtr.noWaits ∧
       ¬(g.minSust ≤ (g.updateCounters ics ocs).inCtr.waits ∧
         g.minSust ≤ (g.updateCounters ics ocs).outCtr.noWaits))) ∧
    ((g.updateCountersAndEvalScaling ics ocs).2 = 0 ↔
      (¬(g.minSust ≤ (g.updateCounters ics ocs).inCtr.waits ∧
         g.minSust ≤ (g.updateCounters ics ocs).outCtr.noWaits) ∧
       ¬(g.minSust ≤ (g.updateCounters ics ocs).inCtr.noWaits))) := by
  have hpair : (g.updateCountersAndEvalScaling ics ocs).2 =
      (g.updateCounters ics ocs).evalScaling := rfl
  rw [hpair]
  unfold governor.evalScaling
  rw [show (g.updateCounters ics ocs).minSust = g.minSust from rfl]
  by_cases hA : g.minSust ≤ (g.updateCounters ics ocs).inCtr.waits ∧
      g.minSust ≤ (g.updateCounters ics ocs).outCtr.noWaits <;>
    by_cases hB : g.minSust ≤ (g.updateCounters ics ocs).inCtr.noWaits <;>
    norm_num [hA, hB]

/-- C10: on a streamer exit whose record has `didQuit = true`, the
governor registers a fresh launcher unconditionally — in particular also
when `isClosing` is already true — so this loop iteration cannot satisfy
the emptiness condition that terminates the drain. -/
theorem didQuit_relaunch (g : governor) (sid : Nat) (inClosed : Bool) :
    (g.step (GovEvent.wExit sid inClosed true)).1.launchers = g.nextWId :: g.launchers ∧
    (g.step (GovEvent.wExit sid inClosed true)).1.nextWId = g.nextWId + 1 ∧
    ¬((g.step (GovEvent.wExit sid inClosed true)).1.isClosing = true ∧
      (g.step (GovEvent.wExit sid inClosed true)).1.streamers = [] ∧
      (g.step (GovEvent.wExit sid inClosed true)).1.launchers = []) := by
  unfold governor.step governor.launchStreamer
  by_cases h : inClosed = true ∧ g.isClosing = false <;> simp [h]

/-- C8: when `streamer.start` fails, `launch` records the error with no
streamer reference; handling the resulting launcher-exit event removes
the launcher, leaves the streamer pool untouched, logs one warning, does
not create a replacement launcher (`nextWId` unchanged), and does not
stop the loop. -/
theorem launcherFailure_discarded (g : governor) (lid : Nat) (e : Option Nat)
    (he : e ≠ none) :
    (launcher.launch lid e).err = e ∧
    (launcher.launch lid e).worker = none ∧
    (g.step (GovEvent.lExit (launcher.launch lid e))).1.streamers = g.streamers ∧
    (g.step (GovEvent.lExit (launcher.launch lid e))).1.launchers = g.launchers.erase lid ∧
    (g.step (GovEvent.lExit (launcher.launch lid e))).1.nextWId = g.nextWId ∧
    (g.step (GovEvent.lExit (launcher.launch lid e))).1.warnCount = g.warnCount + 1 ∧
    (g.step (GovEvent.lExit (launcher.launch lid e))).2 = false := by
  obtain ⟨k, rfl⟩ : ∃ k, e = some k := by
    cases e with
    | none => exact absurd rfl he
    | some k => exact ⟨k, rfl⟩
  simp [launcher.launch, governor.step]

/-- C8 witness: the failed-launch path evaluated on the fresh demo
governor with launcher id `0` and start error `7`. -/
theorem launcherFailure_discarded_witness :
    (launcher.launch 0 (some 7)).err = some 7 ∧
    (launcher.launch 0 (some 7)).worker = none ∧
    ((governor.initState cfgDemo).step (GovEvent.lExit (launcher.launch 0 (some 7)))).1.streamers =
      (governor.initState cfgDemo).streamers ∧
    ((governor.initState cfgDemo).step (GovEvent.lExit (launcher.launch 0 (some 7)))).1.launchers =
      (governor.initState cfgDemo).launchers.erase 0 ∧
    ((governor.initState cfgDemo).step (GovEvent.lExit (launcher.launch 0 (some 7)))).1.nextWId =
      (governor.initState cfgDemo).nextWId ∧
    ((governor.initState cfgDemo).step (GovEvent.lExit (launcher.launch 0 (some 7)))).1.warnCount =
      (governor.initState cfgDemo).warnCount + 1 ∧
    ((governor.initState cfgDemo).step (GovEvent.lExit (launcher.launch 0 (some 7)))).2 = false :=
  launcherFailure_discarded (governor.initState cfgDemo) 0 (some 7) (by decide)

/-- C7: with `MaxRetries = 0`, `runRetryForwarder` returns immediately:
the internal retry channel is never allocated, no `bufferedForwarder` is
spawned, and no request reaches the Client's retry channel, whatever the
retry traffic would have been. -/
theorem runRetryForwarder_disabled (cfg : ProcCfg) (reqs : Nat)
    (h : cfg.MaxRetries = 0) :
    governor.runRetryForwarder cfg reqs = ⟨false, 0, 0⟩ := by
  unfold governor.runRetryForwarder
  simp [h]

/-- C7 witness: the disabled forwarder evaluated on the zero-retry demo
configuration with 1000 incoming retry requests. -/
theorem runRetryForwarder_disabled_witness :
    governor.runRetryForwarder cfgNoRetry 1000 = ⟨false, 0, 0⟩ :=
  runRetryForwarder_disabled cfgNoRetry 1000 rfl

/-- The retry-forwarder loop as written spawns exactly one forwarder on
the first request and never rotates afterwards, for any number of
requests: `cnt` is reset but never incremented. -/
theorem rfRun_rfStep_succ (n : Nat) : rfRun rfStep (n + 1) = ⟨true, 0, 1, 0⟩ := by
  induction n with
  | zero => rfl
  | succ n ih =>
    rw [show rfRun rfStep (n + 1 + 1) = rfStep (rfRun rfStep (n + 1)) from rfl, ih]
    rfl

/-- Under the specified rotation rule, request `n + 1` (for `n ≤ 499`)
finds the first sub-buffer holding fewer than 500 items: one spawned
forwarder, `n + 1` items received, nothing closed. -/
theorem rfRunSpec_small (n : Nat) (h : n ≤ 499) :
    rfRun rfStepSpec (n + 1) = ⟨true, n + 1, 1, 0⟩ := by
  induction n with
  | zero => rfl
  | succ m ih =>
    rw [show rfRun rfStepSpec (m + 1 + 1) = rfStepSpec (rfRun rfStepSpec (m + 1)) from rfl,
      ih (by omega)]
    unfold rfStepSpec
    rw [if_neg (by simp; omega)]

/-- C5: the source never increments `cnt`, so on 501 received requests
the forwarder keeps the single first sub-buffer (one spawn, no close),
while the specified rotation rule would have allocated a second
sub-buffer on the 501st request and closed the first. -/
theorem runRetryForwarder_rotation_bug :
    (rfRun rfStep 501).spawned = 1 ∧ (rfRun rfStep 501).closedBufs = 0 ∧
    (rfRun rfStepSpec 501).spawned = 2 ∧ (rfRun rfStepSpec 501).closedBufs = 1 := by
  have h1 : rfRun rfStep 501 = ⟨true, 0, 1, 0⟩ := by
    rw [show (501 : Nat) = 500 + 1 from rfl]
    exact rfRun_rfStep_succ 500
  have h2 : rfRun rfStepSpec 501 = rfStepSpec (rfRun rfStepSpec 500) := by
    rw [show (501 : Nat) = 500 + 1 from rfl]
    exact rfRun.eq_2 rfStepSpec 500
  have h3 : rfRun rfStepSpec 500 = ⟨true, 500, 1, 0⟩ := by
    rw [show (500 : Nat) = 499 + 1 from rfl]
    exact rfRunSpec_small 499 (by omega)
  rw [h1, h2, h3]
  decide

/-- C6: `lastScale` is documented as the time of the last up- or
down-scaling but is never assigned anywhere in the source, so the settle
gate never engages: replaying two ticks 20 units apart (with sustained
inbound waits and a settle period of 50), the governor performs scaling
launches at times 1000 and 1020, and `lastScale` still holds its zero
value afterwards. -/
theorem settlePeriod_not_enforced :
    ((governor.initState cfgDemo).runEvents eventsSettle).scaleLog = [1020, 1000] ∧
    ((governor.initState cfgDemo).runEvents eventsSettle).lastScale = 0 ∧
    (1020 - 1000 : Int) < cfgDemo.SettlePeriod := by
  decide

/-- Ceiling form of Euclidean division for positive integers: the
quotient plus a carry for a nonzero remainder equals `(a + b - 1) / b`. -/
theorem int_ediv_ceil (a b : Int) (hb : 0 < b) :
    a / b + (if 0 < a % b then 1 else 0) = (a + b - 1) / b := by
  have hb' : b ≠ 0 := by omega
  set q := a / b with hq
  set r := a % b with hr
  have h : b * q + r = a := Int.ediv_add_emod a b
  have hr0 : 0 ≤ r := Int.emod_nonneg a hb'
  have hrb : r < b := Int.emod_lt_of_pos a hb
  by_cases hpos : 0 < r
  · rw [if_pos hpos, ← h]
    have e1 : b * q + r + b - 1 = (r - 1) + (q + 1) * b := by ring
    rw [e1, Int.add_mul_ediv_right _ _ hb',
      Int.ediv_eq_zero_of_lt (by omega) (by omega)]
    omega
  · rw [if_neg hpos, ← h]
    have e2 : b * q + r + b - 1 = (b - 1 + r) + q * b := by ring
    rw [e2, Int.add_mul_ediv_right _ _ hb',
      Int.ediv_eq_zero_of_lt (by omega) (by omega)]
    omega

/-- C4 counterexample: with `MinSustain = 2^32` ns (about 4.3 s) and
`PollInterval = 1` ns the true ceiling is `2^32`, but the Go `uint32`
conversion truncates it and `minSustainPollPeriods` returns `0`. -/
theorem minSustainPollPeriods_cx :
    cfgOverflow.minSustainPollPeriods = 0 ∧
    cfgOverflow.minSustainPollPeriods ≠
      ((cfgOverflow.MinSustain + cfgOverflow.PollInterval - 1) /
        cfgOverflow.PollInterval).toNat := by
  decide

/-- C4 (amended): `minSustainPollPeriods` returns the ceiling of
`MinSustain / PollInterval` reduced modulo `2^32` (the final Go
`uint32` conversion truncates) when both inputs are positive, and the
maximum `uint32` value `2^32 - 1` when either input is non-positive. -/
theorem minSustainPollPeriods_amended (c : ProcCfg) :
    (0 < c.MinSustain → 0 < c.PollInterval →
      c.minSustainPollPeriods =
        ((c.MinSustain + c.PollInterval - 1) / c.PollInterval).toNat % U32_MOD) ∧
    ((c.MinSustain ≤ 0 ∨ c.PollInterval ≤ 0) →
      c.minSustainPollPeriods = U32_MOD - 1) := by
  constructor
  · intro hm hp
    unfold ProcCfg.minSustainPollPeriods
    rw [if_neg (by omega), ← int_ediv_ceil _ _ hp]
    by_cases hr : 0 < c.MinSustain % c.PollInterval
    · simp [hr]
    · simp [hr]
  · intro h
    unfold ProcCfg.minSustainPollPeriods
    rw [if_pos h]

/-- C4 witness: the amended statement evaluated on the demo
configuration (positive branch) and on the non-positive `MinSustain`
variant (saturating branch). -/
theorem minSustainPollPeriods_amended_witness :
    cfgDemo.minSustainPollPeriods =
      ((cfgDemo.MinSustain + cfgDemo.PollInterval - 1) /
        cfgDemo.PollInterval).toNat % U32_MOD ∧
    cfgNeg.minSustainPollPeriods = U32_MOD - 1 :=
  ⟨(minSustainPollPeriods_amended cfgDemo).1 (by decide) (by decide),
   (minSustainPollPeriods_amended cfgNeg).2 (Or.inl (by decide))⟩

/-- `launchN` never touches the streamer pool. -/
theorem launchN_streamers (g : governor) (n : Nat) :
    (g.launchN n).streamers = g.streamers := by
  induction n generalizing g with
  | zero => rfl
  | succ m ih =>
    rw [show g.launchN (m + 1) = g.launchStreamer.launchN m from rfl, ih]
    rfl

/-- `launchN` adds exactly `n` launchers. -/
theorem launchN_launchers_length (g : governor) (n : Nat) :
    (g.launchN n).launchers.length = g.launchers.length + n := by
  induction n generalizing g with
  | zero => rfl
  | succ m ih =>
    rw [show g.launchN (m + 1) = g.launchStreamer.launchN m from rfl, ih]
    simp [governor.launchStreamer]
    omega

set_option linter.unusedVariables false in
/-- C9: from the fresh setup state, with `1 ≤ MinConns ≤ MaxConns`, a
scale policy satisfying `Apply(n) ≥ n`, and the startup fact that
`time.Now()` lies past the zero `lastScale` plus any settle period, the
initial `tryScaleUp` creates between `MinConns` and `MaxConns` launchers
(and no streamers), so the provisioned pool reaches at least
`MinConns`. -/
theorem initialScaleUp_pool (cfg : ProcCfg) (now : Int)
    (h1 : 1 ≤ cfg.MinConns) (h2 : cfg.MinConns ≤ cfg.MaxConns)
    (hs : ∀ n, n ≤ cfg.scale.apply n)
    (hnow : cfg.SettlePeriod ≤ now) :
    cfg.MinConns ≤ ((governor.initState cfg).tryScaleUp now).launchers.length ∧
    ((governor.initState cfg).tryScaleUp now).launchers.length ≤ cfg.MaxConns ∧
    cfg.MinConns ≤ ((governor.initState cfg).tryScaleUp now).streamers.length +
      ((governor.initState cfg).tryScaleUp now).launchers.length := by
  have hdelta : (governor.initState cfg).allowedScaleDelta now true =
      ((min cfg.MaxConns (max cfg.MinConns (cfg.scale.apply 0)) : Nat) : Int) := by
    simp only [governor.allowedScaleDelta, governor.initState]
    norm_num
    rw [if_neg (show ¬now < cfg.SettlePeriod by omega)]
    rw [if_neg (show ¬cfg.MaxConns = 0 by omega)]
    split_ifs <;> omega
  have hpos : ¬((governor.initState cfg).allowedScaleDelta now true ≤ 0) := by
    rw [hdelta]
    have hmin : cfg.MinConns ≤ min cfg.MaxConns (max cfg.MinConns (cfg.scale.apply 0)) := by
      omega
    omega
  have htn : ((governor.initState cfg).allowedScaleDelta now true).toNat =
      min cfg.MaxConns (max cfg.MinConns (cfg.scale.apply 0)) := by
    rw [hdelta]
    omega
  have hres : (governor.initState cfg).tryScaleUp now =
      { (governor.initState cfg).launchN
          ((governor.initState cfg).allowedScaleDelta now true).toNat with
        scaleLog := now :: (governor.initState cfg).scaleLog } := by
    unfold governor.tryScaleUp
    rw [if_neg hpos]
  have hL : ∀ (h : governor) (t : List Int),
      ({ h with scaleLog := t } : governor).launchers = h.launchers := fun _ _ => rfl
  have hS : ∀ (h : governor) (t : List Int),
      ({ h with scaleLog := t } : governor).streamers = h.streamers := fun _ _ => rfl
  rw [hres, hL, hS, htn, launchN_launchers_length, launchN_streamers]
  simp only [governor.initState, List.length_nil]
  omega

/-- C9 witness: the initial scale-up evaluated on the demo configuration
at time 1000 creates exactly the guaranteed pool. -/
theorem initialScaleUp_pool_witness :
    cfgDemo.MinConns ≤ ((governor.initState cfgDemo).tryScaleUp 1000).launchers.length ∧
    ((governor.initState cfgDemo).tryScaleUp 1000).launchers.length ≤ cfgDemo.MaxConns ∧
    cfgDemo.MinConns ≤ ((governor.initState cfgDemo).tryScaleUp 1000).streamers.length +
      ((governor.initState cfgDemo).tryScaleUp 1000).launchers.length :=
  initialScaleUp_pool cfgDemo 1000 (by decide) (by decide)
    (fun n => Nat.le_succ n) (by decide)

/-- C1: `allowedScaleDelta` computes exactly the admissible delta the
specification states, for every governor state whose pool size is
representable in `uint32` (so the Go `uint32(len + len)` conversion in
the source does not truncate). -/
theorem allowedScaleDelta_matches_claim (g : governor) (now : Int) (forUp : Bool)
    (h : g.streamers.length + g.launchers.length < U32_MOD) :
    g.allowedScaleDelta now forUp = allowedScaleDeltaClaim g now forUp := by
  unfold governor.allowedScaleDelta allowedScaleDeltaClaim
  rw [Nat.mod_eq_of_lt h]
  have hiff : (¬g.nonBlocking = true ∧ g.launchers ≠ []) ↔
      (¬g.nonBlocking = true ∧ 0 < g.launchers.length) :=
    and_congr_right fun _ => List.length_pos.symm
  simp only [hiff]
  cases forUp <;>
    (norm_num;
     split_ifs <;> first | rfl | omega | tauto)

/-- C1 witness: the code-side and specification-side delta agree on the
fresh demo governor at time 1000 for scale-up. -/
theorem allowedScaleDelta_matches_claim_witness :
    (governor.initState cfgDemo).allowedScaleDelta 1000 true =
      allowedScaleDeltaClaim (governor.initState cfgDemo) 1000 true :=
  allowedScaleDelta_matches_claim (governor.initState cfgDemo) 1000 true (by decide)
